import Mathlib

/-!
Verification of the per-page profile-image cache of the portfolio
repository. Two parallel implementations exist in the source:

* the React hook `usePageImage` in `src/Home.jsx` (lines 133-165) together
  with the `ImageUploader` component (lines 167-197);
* the plain-script IIFE in `src/assets/js/main.js` (lines 2-78).

We shallowly embed both. Component state is a pair of the visible image
string (the hook's `src` state, respectively the preview element's
background-image URL; the empty string models "no image shown") and the
browser `localStorage` store, modelled as an association list from string
keys to string values with last-write-wins `setItem` / `removeItem`
semantics. The asynchronous `FileReader` is the external file-read
primitive: a file is modelled by the data-URL string the reader's `onload`
callback receives as `reader.result`, and the completion of a read is an
explicit step.
-/

namespace PortfolioCache

/-- The browser key-value store (`localStorage`): an association list from
string keys to string values; the first binding for a key is its current
value. -/
def Store := List (String × String)

instance : DecidableEq Store := by
  unfold Store
  infer_instance

/-- `localStorage.getItem(k)`: the current value bound to `k`, or `none`
(JS `null`) when no entry is present. -/
def getItem (st : Store) (k : String) : Option String :=
  (st.find? (fun p => p.1 == k)).map (fun p => p.2)

/-- `localStorage.setItem(k, v)`: bind `k` to `v`, overwriting any prior
binding. -/
def setItem (st : Store) (k v : String) : Store :=
  (k, v) :: st.filter (fun p => p.1 != k)

/-- `localStorage.removeItem(k)`: drop any binding of `k`. -/
def removeItem (st : Store) (k : String) : Store :=
  st.filter (fun p => p.1 != k)

/-- Component state for one page: the visible image string (empty means
"no image shown", i.e. the placeholder is rendered) and the shared
browser store. -/
structure St where
  visible : String
  store : Store
deriving DecidableEq

/-- A user-selected file, represented by the data-URL string that the
browser's `FileReader.readAsDataURL` produces for it in `reader.result`
(the file-read primitive is an external collaborator; only its result
string is observable to the component). -/
structure JSFile where
  dataUrl : String
deriving DecidableEq

/-- Characters removed by JavaScript's `String.prototype.trim`, per
ECMA-262: the WhiteSpace production — TAB U+0009, VT U+000B, FF U+000C,
SP U+0020, NBSP U+00A0, ZWNBSP U+FEFF and every character of the Unicode
space-separator category Zs (U+1680, U+2000..U+200A, U+202F, U+205F,
U+3000) — together with the LineTerminator production: LF U+000A,
CR U+000D, LS U+2028, PS U+2029. -/
def jsWhitespace (c : Char) : Bool :=
  let n := c.toNat
  n == 0x09 || n == 0x0A || n == 0x0B || n == 0x0C || n == 0x0D ||
    n == 0x20 || n == 0xA0 || n == 0x1680 ||
    (0x2000 ≤ n && n ≤ 0x200A) ||
    n == 0x2028 || n == 0x2029 || n == 0x202F || n == 0x205F ||
    n == 0x3000 || n == 0xFEFF

/-- JavaScript `String.prototype.trim`: remove leading and trailing
whitespace. -/
def jsTrim (s : String) : String :=
  String.mk (((s.data.dropWhile jsWhitespace).reverse.dropWhile jsWhitespace).reverse)

/-- Key derivation of `src/Home.jsx` line 135:
`const key = \x7bprofile-image:$\x7bpathname || "/"\x7d\x7d` — the template literal
prefixes `profile-image:` to the router pathname, defaulting a falsy
(empty) pathname to `/`. -/
def reactKey (pathname : String) : String :=
  "profile-image:" ++ (if pathname == "" then "/" else pathname)

/-- Key derivation of `src/assets/js/main.js` lines 5-6: the page
identifier is `document.body.getAttribute('data-page') || 'home'`
(`getAttribute` yields `null` — modelled `none` — when absent, and a falsy
empty string also defaults to `home`), prefixed with
`ant-portfolio-photo:`. -/
def mainKey (dataPage : Option String) : String :=
  "ant-portfolio-photo:" ++
    (match dataPage with
     | some p => if p == "" then "home" else p
     | none => "home")

/-! ### React hook `usePageImage` (src/Home.jsx lines 133-165) -/

/-- The `useEffect` of `usePageImage` (lines 138-142):
`const cached = localStorage.getItem(key); if (cached) setSrc(cached);` —
a truthy (present and non-empty) cached value becomes the visible state,
otherwise the state is left as is. -/
def reactLoad (k : String) (s : St) : St :=
  match getItem s.store k with
  | some cached => if cached != "" then { s with visible := cached } else s
  | none => s

/-- The `reader.onload` callback of `onFile` (lines 146-150): on
completion of the asynchronous read, `setSrc(dataUrl)` and
`localStorage.setItem(key, dataUrl)`. -/
def reactFileComplete (k : String) (f : JSFile) (s : St) : St :=
  { visible := f.dataUrl, store := setItem s.store k f.dataUrl }

/-- `setFromUrl` (lines 154-157): `setSrc(url); localStorage.setItem(key, url)`
— the string is stored verbatim, with no guard and no trimming. -/
def reactSetFromUrl (k : String) (u : String) (s : St) : St :=
  { visible := u, store := setItem s.store k u }

/-- `clear` (lines 159-162): `setSrc(""); localStorage.removeItem(key)`. -/
def reactClear (k : String) (s : St) : St :=
  { visible := "", store := removeItem s.store k }

/-- The `Set` button of `ImageUploader` (line 188):
`onClick=\x7b() => tempUrl && setFromUrl(tempUrl)\x7d` — the hook's
`setFromUrl` runs whenever the typed text is truthy (non-empty); the text
is NOT trimmed. -/
def reactSetBtnClick (k : String) (tempUrl : String) (s : St) : St :=
  if tempUrl != "" then reactSetFromUrl k tempUrl s else s

/-- The file input's `onChange` (line 175):
`(e) => e.target.files?.[0] && onFile(e.target.files[0])` — when a first
file exists, `onFile` starts the asynchronous read (no synchronous state
change; completion is `reactFileComplete`); otherwise nothing happens.
Returns the unchanged state together with the file whose read was
started, if any. -/
def reactFileInputChange (files : Option (List JSFile)) (s : St) :
    St × Option JSFile :=
  match files with
  | some (f :: _) => (s, some f)
  | _ => (s, none)

/-! ### Plain script (src/assets/js/main.js lines 2-78) -/

/-- `setPreview(url)` (lines 30-33): sets the preview element's
background image to `url("...")` when `url` is truthy and to `none`
otherwise; observably, the visible image string becomes `url` (with the
empty string meaning no image). -/
def mainSetPreview (url : String) (s : St) : St :=
  { s with visible := url }

/-- The "Load cached" block (lines 37-41):
`const cached = localStorage.getItem(LS_KEY); if (cached) setPreview(cached);`
inside `try/catch` — under an available store the catch is inert. -/
def mainLoadCached (k : String) (s : St) : St :=
  match getItem s.store k with
  | some cached => if cached != "" then mainSetPreview cached s else s
  | none => s

/-- The `reader.onload` callback of the file change handler (lines
50-54): `setPreview(dataUrl)` then
`try \x7b localStorage.setItem(LS_KEY, dataUrl) \x7d catch (e) \x7b\x7d`. -/
def mainFileComplete (k : String) (f : JSFile) (s : St) : St :=
  { mainSetPreview f.dataUrl s with store := setItem s.store k f.dataUrl }

/-- The `setUrlBtn` click handler (lines 61-68):
`const val = urlInput.value.trim(); if (!val) return;` then
`setPreview(val)` and `localStorage.setItem(LS_KEY, val)` — the input is
trimmed, and an empty trimmed value aborts the handler. -/
def mainSetUrlClick (k : String) (raw : String) (s : St) : St :=
  let val := jsTrim raw
  if val != "" then { mainSetPreview val s with store := setItem s.store k val }
  else s

/-- The `clearBtn` click handler (lines 72-77): `setPreview('')` then
`localStorage.removeItem(LS_KEY)`. -/
def mainClearClick (k : String) (s : St) : St :=
  { mainSetPreview "" s with store := removeItem s.store k }

/-- The file input change handler (lines 45-48):
`const file = e.target.files && e.target.files[0]; if (!file) return;` —
with no file the handler returns; with a file the asynchronous read is
started (completion is `mainFileComplete`). -/
def mainFileInputChange (files : Option (List JSFile)) (s : St) :
    St × Option JSFile :=
  match files with
  | some (f :: _) => (s, some f)
  | _ => (s, none)

/-! ### Store that may be unavailable

`localStorage` access can throw (storage disabled by policy). `main.js`
wraps every access in `try/catch`; the React hook wraps none. -/

/-- `localStorage.getItem` against a store that may be unavailable: when
unavailable the access throws (modelled `Except.error ()`). -/
def getItemE (avail : Bool) (st : Store) (k : String) :
    Except Unit (Option String) :=
  if avail then Except.ok (getItem st k) else Except.error ()

/-- The React hook's load effect (src/Home.jsx lines 138-142) against a
possibly-unavailable store: the `localStorage.getItem` call is NOT inside
any `try/catch`, so a throwing read propagates out of the effect. -/
def reactLoadE (avail : Bool) (k : String) (s : St) : Except Unit St :=
  match getItemE avail s.store k with
  | Except.error e => Except.error e
  | Except.ok cached =>
    Except.ok
      (match cached with
       | some c => if c != "" then { s with visible := c } else s
       | none => s)

/-- The plain script's load block (src/assets/js/main.js lines 37-41)
against a possibly-unavailable store: the read sits inside
`try \x7b ... \x7d catch (e) \x7b /* localStorage might be blocked */ \x7d`, so a
throwing read leaves the state unchanged and no error escapes. -/
def mainLoadCachedE (avail : Bool) (k : String) (s : St) : St :=
  match getItemE avail s.store k with
  | Except.error _ => s
  | Except.ok cached =>
    match cached with
    | some c => if c != "" then mainSetPreview c s else s
    | none => s

/-! ### Operation sequences -/

/-- One user-or-system-triggered event on the page's image cache:
activation load, typing `input` into the URL field and pressing Set,
triggering the upload control with the given file list, completion of a
pending file read, or pressing Clear. -/
inductive Op where
  | load : Op
  | setUrl : String → Op
  | fileChange : Option (List JSFile) → Op
  | fileDone : JSFile → Op
  | clear : Op
deriving DecidableEq

/-- One step of the React implementation. -/
def stepReact (k : String) (s : St) : Op → St
  | Op.load => reactLoad k s
  | Op.setUrl i => reactSetBtnClick k i s
  | Op.fileChange files => (reactFileInputChange files s).1
  | Op.fileDone f => reactFileComplete k f s
  | Op.clear => reactClear k s

/-- One step of the plain-script implementation. -/
def stepMain (k : String) (s : St) : Op → St
  | Op.load => mainLoadCached k s
  | Op.setUrl i => mainSetUrlClick k i s
  | Op.fileChange files => (mainFileInputChange files s).1
  | Op.fileDone f => mainFileComplete k f s
  | Op.clear => mainClearClick k s

/-- Run a sequence of operations through the React implementation. -/
def runReact (k : String) (s : St) : List Op → St
  | [] => s
  | op :: ops => runReact k (stepReact k s op) ops

/-- Run a sequence of operations through the plain-script
implementation. -/
def runMain (k : String) (s : St) : List Op → St
  | [] => s
  | op :: ops => runMain k (stepMain k s op) ops

/-! ### Store lemmas -/

theorem find?_filter_ne (st : Store) (k k' : String) (h : k' ≠ k) :
    (st.filter (fun p => p.1 != k)).find? (fun p => p.1 == k') =
      st.find? (fun p => p.1 == k') := by
  induction st with
  | nil => rfl
  | cons hd tl ih =>
    by_cases hk : hd.1 = k
    · rw [List.filter_cons_of_neg (by simp [hk]),
        List.find?_cons_of_neg tl (by simp [hk, Ne.symm h]), ih]
    · rw [List.filter_cons_of_pos (by simp [hk])]
      by_cases hk2 : hd.1 = k'
      · rw [List.find?_cons_of_pos _ (by simp [hk2]),
          List.find?_cons_of_pos _ (by simp [hk2])]
      · rw [List.find?_cons_of_neg _ (by simp [hk2]),
          List.find?_cons_of_neg _ (by simp [hk2]), ih]

theorem getItem_setItem_self (st : Store) (k v : String) :
    getItem (setItem st k v) k = some v := by
  simp [getItem, setItem]

theorem getItem_setItem_ne (st : Store) (k k' v : String) (h : k' ≠ k) :
    getItem (setItem st k v) k' = getItem st k' := by
  unfold getItem setItem
  rw [List.find?_cons_of_neg _ (by simp [Ne.symm h]), find?_filter_ne st k k' h]

theorem getItem_removeItem_self (st : Store) (k : String) :
    getItem (removeItem st k) k = none := by
  unfold getItem removeItem
  induction st with
  | nil => rfl
  | cons hd tl ih =>
    by_cases hk : hd.1 = k
    · rw [List.filter_cons_of_neg (by simp [hk])]; exact ih
    · rw [List.filter_cons_of_pos (by simp [hk]),
        List.find?_cons_of_neg _ (by simp [hk])]
      exact ih

theorem getItem_removeItem_ne (st : Store) (k k' : String) (h : k' ≠ k) :
    getItem (removeItem st k) k' = getItem st k' := by
  unfold getItem removeItem
  rw [find?_filter_ne st k k' h]

theorem removeItem_removeItem (st : Store) (k : String) :
    removeItem (removeItem st k) k = removeItem st k := by
  unfold removeItem
  induction st with
  | nil => rfl
  | cons hd tl ih =>
    by_cases hk : hd.1 = k
    · rw [List.filter_cons_of_neg (by simp [hk])]; exact ih
    · rw [List.filter_cons_of_pos (by simp [hk]),
        List.filter_cons_of_pos (by simp [hk]), ih]

theorem reactLoad_store (k : String) (s : St) :
    (reactLoad k s).store = s.store := by
  unfold reactLoad
  cases getItem s.store k with
  | none => rfl
  | some c =>
    by_cases hc : c = ""
    · simp [hc]
    · simp [hc]

theorem mainLoadCached_store (k : String) (s : St) :
    (mainLoadCached k s).store = s.store := by
  unfold mainLoadCached mainSetPreview
  cases getItem s.store k with
  | none => rfl
  | some c =>
    by_cases hc : c = ""
    · simp [hc]
    · simp [hc]



theorem reactLoad_of_none (k : String) (s : St) (h : getItem s.store k = none) :
    reactLoad k s = s := by
  unfold reactLoad
  rw [h]

theorem reactLoad_of_some (k : String) (s : St) (v : String)
    (h : getItem s.store k = some v) (hv : v ≠ "") :
    (reactLoad k s).visible = v := by
  unfold reactLoad
  rw [h]
  simp [hv]

theorem mainLoadCached_of_none (k : String) (s : St)
    (h : getItem s.store k = none) : mainLoadCached k s = s := by
  unfold mainLoadCached
  rw [h]

theorem mainLoadCached_of_some (k : String) (s : St) (v : String)
    (h : getItem s.store k = some v) (hv : v ≠ "") :
    (mainLoadCached k s).visible = v := by
  unfold mainLoadCached
  rw [h]
  simp [hv, mainSetPreview]

/-- C4: for every page key and every prior state, `Clear` leaves the
visible state empty and the stored entry absent (so a following `Load`
yields empty), and `Clear` is idempotent — in both the React hook and the
plain script. -/
theorem clear_load_empty_idempotent (k : String) (s : St) :
    (reactClear k s).visible = "" ∧
    getItem (reactClear k s).store k = none ∧
    (reactLoad k (reactClear k s)).visible = "" ∧
    reactClear k (reactClear k s) = reactClear k s ∧
    (mainClearClick k s).visible = "" ∧
    getItem (mainClearClick k s).store k = none ∧
    (mainLoadCached k (mainClearClick k s)).visible = "" ∧
    mainClearClick k (mainClearClick k s) = mainClearClick k s := by
  have hr : getItem (reactClear k s).store k = none := getItem_removeItem_self s.store k
  have hm : getItem (mainClearClick k s).store k = none := getItem_removeItem_self s.store k
  refine ⟨?_, hr, ?_, ?_, ?_, hm, ?_, ?_⟩
  · rfl
  · rw [reactLoad_of_none k _ hr]
    rfl
  · unfold reactClear
    rw [removeItem_removeItem]
  · rfl
  · rw [mainLoadCached_of_none k _ hm]
    rfl
  · unfold mainClearClick mainSetPreview
    rw [removeItem_removeItem]

/-- C5: when a `SetFromFile` conversion completes, both implementations
set the visible state to the resulting data URL in one step and write the
very same string to the store under the page key, overwriting any prior
value, so the stored entry equals the visible state exactly. -/
theorem fileComplete_state_eq_store (k : String) (f : JSFile) (s : St) :
    (reactFileComplete k f s).visible = f.dataUrl ∧
    getItem (reactFileComplete k f s).store k = some f.dataUrl ∧
    getItem (reactFileComplete k f s).store k =
      some (reactFileComplete k f s).visible ∧
    (mainFileComplete k f s).visible = f.dataUrl ∧
    getItem (mainFileComplete k f s).store k = some f.dataUrl ∧
    getItem (mainFileComplete k f s).store k =
      some (mainFileComplete k f s).visible := by
  have hr : getItem (reactFileComplete k f s).store k = some f.dataUrl :=
    getItem_setItem_self s.store k f.dataUrl
  have hm : getItem (mainFileComplete k f s).store k = some f.dataUrl :=
    getItem_setItem_self s.store k f.dataUrl
  exact ⟨rfl, hr, hr, rfl, hm, hm⟩

/-- C8: triggering the upload control starts the read with no synchronous
state change; a `Clear` that runs before the conversion completes leaves
the visible state empty and the entry removed; and the pending callback,
once it fires, unconditionally overwrites both visible state and stored
entry with the data URL, whatever the intervening state was — in both
implementations. -/
theorem clear_before_file_completion (k : String) (f : JSFile) (s sMid : St) :
    reactFileInputChange (some [f]) s = (s, some f) ∧
    (reactClear k s).visible = "" ∧
    getItem (reactClear k s).store k = none ∧
    reactFileComplete k f sMid =
      { visible := f.dataUrl, store := setItem sMid.store k f.dataUrl } ∧
    (reactFileComplete k f (reactClear k s)).visible = f.dataUrl ∧
    getItem (reactFileComplete k f (reactClear k s)).store k = some f.dataUrl ∧
    mainFileInputChange (some [f]) s = (s, some f) ∧
    (mainClearClick k s).visible = "" ∧
    getItem (mainClearClick k s).store k = none ∧
    mainFileComplete k f sMid =
      { visible := f.dataUrl, store := setItem sMid.store k f.dataUrl } ∧
    (mainFileComplete k f (mainClearClick k s)).visible = f.dataUrl ∧
    getItem (mainFileComplete k f (mainClearClick k s)).store k = some f.dataUrl := by
  refine ⟨rfl, rfl, getItem_removeItem_self s.store k, rfl, rfl,
    getItem_setItem_self _ k f.dataUrl, rfl, rfl,
    getItem_removeItem_self s.store k, rfl, rfl,
    getItem_setItem_self _ k f.dataUrl⟩

/-- C9: triggering the file-upload control with no selected file (absent
or empty file list) is a complete no-op in both implementations: the state
is unchanged and no read is started, so no completion callback and no
store write can follow. -/
theorem no_file_selected_noop (s : St) :
    reactFileInputChange none s = (s, none) ∧
    reactFileInputChange (some []) s = (s, none) ∧
    mainFileInputChange none s = (s, none) ∧
    mainFileInputChange (some []) s = (s, none) :=
  ⟨rfl, rfl, rfl, rfl⟩



/-- C1 counterexample: the plain script's URL handler trims its input, so
with the input `" x"` the value stored and read back is `"x"`, not the
string verbatim: `Load` after `SetFromUrl(" x")` yields `"x" ≠ " x"`. -/
theorem load_after_setFromUrl_counterexample :
    (mainLoadCached (mainKey none)
        (mainSetUrlClick (mainKey none) " x" ⟨"", []⟩)).visible = "x" ∧
    (mainLoadCached (mainKey none)
        (mainSetUrlClick (mainKey none) " x" ⟨"", []⟩)).visible ≠ " x" := by
  decide

/-- C1 amended: `Load` immediately after `SetFromUrl(u)` yields `u` for
every `u` in the React hook; in the plain script it yields `u` provided
`u` carries no surrounding whitespace (the handler trims) and is
non-empty (the handler ignores empty input). -/
theorem load_after_setFromUrl (k u : String) (s : St) :
    (reactLoad k (reactSetFromUrl k u s)).visible = u ∧
    (jsTrim u = u → u ≠ "" →
      (mainLoadCached k (mainSetUrlClick k u s)).visible = u) := by
  constructor
  · by_cases hu : u = ""
    · subst hu
      have h : getItem (reactSetFromUrl k "" s).store k = some "" :=
        getItem_setItem_self s.store k ""
      unfold reactLoad
      rw [h]
      rfl
    · exact reactLoad_of_some k _ u (getItem_setItem_self s.store k u) hu
  · intro ht hu
    have hw : mainSetUrlClick k u s =
        { mainSetPreview u s with store := setItem s.store k u } := by
      unfold mainSetUrlClick
      rw [ht]
      simp [hu]
    rw [hw]
    exact mainLoadCached_of_some k _ u (getItem_setItem_self s.store k u) hu

/-- C1 witness: at `u = "x"` on a fresh state, both implementations read
back exactly `"x"`. -/
theorem load_after_setFromUrl_witness :
    jsTrim "x" = "x" ∧ ("x" : String) ≠ "" ∧
    (reactLoad (reactKey "/")
        (reactSetFromUrl (reactKey "/") "x" ⟨"", []⟩)).visible = "x" ∧
    (mainLoadCached (reactKey "/")
        (mainSetUrlClick (reactKey "/") "x" ⟨"", []⟩)).visible = "x" := by
  refine ⟨by decide, by decide, ?_, ?_⟩
  · exact (load_after_setFromUrl (reactKey "/") "x" ⟨"", []⟩).1
  · exact (load_after_setFromUrl (reactKey "/") "x" ⟨"", []⟩).2
      (by decide) (by decide)

/-- C3 counterexample: in the React component the Set button guards only
against the empty string, so the whitespace-only input `"   "` is NOT a
no-op: it changes the visible state to `"   "` and writes `"   "` to the
store. -/
theorem blank_input_noop_counterexample :
    reactSetBtnClick (reactKey "/") "   " ⟨"", []⟩ ≠ (⟨"", []⟩ : St) ∧
    (reactSetBtnClick (reactKey "/") "   " ⟨"", []⟩).visible = "   " ∧
    getItem (reactSetBtnClick (reactKey "/") "   " ⟨"", []⟩).store
      (reactKey "/") = some "   " := by
  decide

/-- C3 amended: `SetFromUrl` on the empty string is a no-op in both
implementations, and on a whitespace-only string it is a no-op in the
plain script (which trims); the React Set button, however, passes any
non-empty string — whitespace-only ones included — verbatim to
`setFromUrl`, changing state and store. -/
theorem blank_input_noop (k w : String) (s : St) :
    reactSetBtnClick k "" s = s ∧
    mainSetUrlClick k "" s = s ∧
    (jsTrim w = "" → mainSetUrlClick k w s = s) ∧
    (w ≠ "" → reactSetBtnClick k w s = reactSetFromUrl k w s) := by
  refine ⟨rfl, rfl, ?_, ?_⟩
  · intro h
    unfold mainSetUrlClick
    rw [h]
    rfl
  · intro hw
    unfold reactSetBtnClick
    simp [hw]

/-- C3 witness: at the whitespace-only input `"   "` the plain script is
a no-op while the React Set button stores the string verbatim. -/
theorem blank_input_noop_witness :
    jsTrim "   " = "" ∧ ("   " : String) ≠ "" ∧
    reactSetBtnClick (reactKey "/") "" ⟨"", []⟩ = (⟨"", []⟩ : St) ∧
    mainSetUrlClick (reactKey "/") "   " ⟨"", []⟩ = (⟨"", []⟩ : St) ∧
    reactSetBtnClick (reactKey "/") "   " ⟨"", []⟩ =
      reactSetFromUrl (reactKey "/") "   " ⟨"", []⟩ := by
  refine ⟨by decide, by decide, ?_, ?_, ?_⟩
  · exact (blank_input_noop (reactKey "/") "   " ⟨"", []⟩).1
  · exact (blank_input_noop (reactKey "/") "   " ⟨"", []⟩).2.2.1 (by decide)
  · exact (blank_input_noop (reactKey "/") "   " ⟨"", []⟩).2.2.2 (by decide)



theorem string_append_left_cancel (s t u : String) (h : s ++ t = s ++ u) :
    t = u := by
  apply String.ext
  have hd := congrArg String.data h
  rw [String.data_append, String.data_append] at hd
  exact List.append_cancel_left hd

theorem reactLoad_visible (k : String) (s : St) :
    (reactLoad k s).visible =
      (match getItem s.store k with
       | some c => if c != "" then c else s.visible
       | none => s.visible) := by
  unfold reactLoad
  cases getItem s.store k with
  | none => rfl
  | some c =>
    by_cases hc : c = ""
    · simp [hc]
    · simp [hc]

theorem reactLoad_visible_congr (k v : String) (st1 st2 : Store)
    (h : getItem st1 k = getItem st2 k) :
    (reactLoad k ⟨v, st1⟩).visible = (reactLoad k ⟨v, st2⟩).visible := by
  rw [reactLoad_visible, reactLoad_visible]
  dsimp only
  rw [h]

theorem stepReact_frame (k1 k2 : String) (h : k1 ≠ k2) (s : St) (op : Op) :
    getItem (stepReact k1 s op).store k2 = getItem s.store k2 := by
  cases op with
  | load =>
    show getItem (reactLoad k1 s).store k2 = getItem s.store k2
    rw [reactLoad_store]
  | setUrl i =>
    show getItem (reactSetBtnClick k1 i s).store k2 = getItem s.store k2
    unfold reactSetBtnClick
    by_cases hi : i = ""
    · simp [hi]
    · simp [hi, reactSetFromUrl, getItem_setItem_ne s.store k1 k2 i (Ne.symm h)]
  | fileChange files =>
    show getItem (reactFileInputChange files s).1.store k2 = getItem s.store k2
    match files with
    | none => rfl
    | some [] => rfl
    | some (f :: fs) => rfl
  | fileDone f =>
    show getItem (reactFileComplete k1 f s).store k2 = getItem s.store k2
    exact getItem_setItem_ne s.store k1 k2 f.dataUrl (Ne.symm h)
  | clear =>
    show getItem (reactClear k1 s).store k2 = getItem s.store k2
    exact getItem_removeItem_ne s.store k1 k2 (Ne.symm h)

theorem stepMain_frame (k1 k2 : String) (h : k1 ≠ k2) (s : St) (op : Op) :
    getItem (stepMain k1 s op).store k2 = getItem s.store k2 := by
  cases op with
  | load =>
    show getItem (mainLoadCached k1 s).store k2 = getItem s.store k2
    rw [mainLoadCached_store]
  | setUrl i =>
    show getItem (mainSetUrlClick k1 i s).store k2 = getItem s.store k2
    unfold mainSetUrlClick
    by_cases hi : jsTrim i = ""
    · simp [hi]
    · simp [hi, mainSetPreview, getItem_setItem_ne s.store k1 k2 (jsTrim i) (Ne.symm h)]
  | fileChange files =>
    show getItem (mainFileInputChange files s).1.store k2 = getItem s.store k2
    match files with
    | none => rfl
    | some [] => rfl
    | some (f :: fs) => rfl
  | fileDone f =>
    show getItem (mainFileComplete k1 f s).store k2 = getItem s.store k2
    exact getItem_setItem_ne s.store k1 k2 f.dataUrl (Ne.symm h)
  | clear =>
    show getItem (mainClearClick k1 s).store k2 = getItem s.store k2
    exact getItem_removeItem_ne s.store k1 k2 (Ne.symm h)

/-- C2 counterexample: the key derivation is not injective on all
identifier strings — the empty pathname and the pathname `/` collide
(`pathname || "/"` defaults the falsy empty string), so a set on the page
identified by `""` changes the stored entry of the page identified by
`/`. -/
theorem page_isolation_counterexample :
    ("" : String) ≠ "/" ∧
    reactKey "" = reactKey "/" ∧
    getItem (⟨"", []⟩ : St).store (reactKey "/") = none ∧
    getItem (reactSetFromUrl (reactKey "") "x" ⟨"", []⟩).store
      (reactKey "/") = some "x" := by
  decide

/-- C2 amended: distinct NON-EMPTY page identifiers derive distinct
storage keys in both implementations (the falsy empty identifier is
defaulted and may collide with `/` respectively `home`), and whenever two
keys are distinct, every operation performed under one key leaves both
the stored entry and the loaded visible state under the other key
unchanged. -/
theorem page_isolation (p1 p2 a1 a2 k1 k2 : String) (op : Op) (s : St)
    (v : String) :
    (p1 ≠ "" → p2 ≠ "" → p1 ≠ p2 → reactKey p1 ≠ reactKey p2) ∧
    (a1 ≠ "" → a2 ≠ "" → a1 ≠ a2 → mainKey (some a1) ≠ mainKey (some a2)) ∧
    (k1 ≠ k2 → getItem (stepReact k1 s op).store k2 = getItem s.store k2) ∧
    (k1 ≠ k2 → getItem (stepMain k1 s op).store k2 = getItem s.store k2) ∧
    (k1 ≠ k2 → (reactLoad k2 ⟨v, (stepReact k1 s op).store⟩).visible =
      (reactLoad k2 ⟨v, s.store⟩).visible) := by
  refine ⟨?_, ?_, ?_, ?_, ?_⟩
  · intro h1 h2 h hk
    unfold reactKey at hk
    rw [if_neg (by simp [h1]), if_neg (by simp [h2])] at hk
    exact h (string_append_left_cancel _ _ _ hk)
  · intro h1 h2 h hk
    unfold mainKey at hk
    dsimp only at hk
    rw [if_neg (by simp [h1]), if_neg (by simp [h2])] at hk
    exact h (string_append_left_cancel _ _ _ hk)
  · exact fun h => stepReact_frame k1 k2 h s op
  · exact fun h => stepMain_frame k1 k2 h s op
  · exact fun h => reactLoad_visible_congr k2 v _ _ (stepReact_frame k1 k2 h s op)

/-- C2 witness: the pages `/` and `/education` (plain-script identifiers
`home` and `education`) get distinct keys, and a URL set under the first
key leaves the second key's entry and loaded visible state unchanged. -/
theorem page_isolation_witness :
    ("/" : String) ≠ "" ∧ ("/education" : String) ≠ "" ∧
    ("/" : String) ≠ "/education" ∧
    ("home" : String) ≠ "" ∧ ("education" : String) ≠ "" ∧
    ("home" : String) ≠ "education" ∧
    reactKey "/" ≠ reactKey "/education" ∧
    mainKey (some "home") ≠ mainKey (some "education") ∧
    getItem (stepReact (reactKey "/") ⟨"", []⟩ (Op.setUrl "x")).store
        (reactKey "/education") =
      getItem (⟨"", []⟩ : St).store (reactKey "/education") ∧
    getItem (stepMain (reactKey "/") ⟨"", []⟩ (Op.setUrl "x")).store
        (reactKey "/education") =
      getItem (⟨"", []⟩ : St).store (reactKey "/education") ∧
    (reactLoad (reactKey "/education")
        ⟨"", (stepReact (reactKey "/") ⟨"", []⟩ (Op.setUrl "x")).store⟩).visible =
      (reactLoad (reactKey "/education") ⟨"", ([] : Store)⟩).visible := by
  have h := page_isolation "/" "/education" "home" "education"
    (reactKey "/") (reactKey "/education") (Op.setUrl "x") ⟨"", []⟩ ""
  exact ⟨by decide, by decide, by decide, by decide, by decide, by decide,
    h.1 (by decide) (by decide) (by decide),
    h.2.1 (by decide) (by decide) (by decide),
    h.2.2.1 (by decide),
    h.2.2.2.1 (by decide),
    h.2.2.2.2 (by decide)⟩



/-- C6 counterexample: the React hook's load effect performs the
`localStorage.getItem` call outside any `try/catch`, so when the store is
unavailable the failure propagates out of `Load` instead of being treated
as an absent entry. -/
theorem load_store_failure_counterexample :
    reactLoadE false (reactKey "/") ⟨"", []⟩ = Except.error () := rfl

/-- C6 amended: when the store read fails, the plain script's load block
(whose read sits in `try/catch`) leaves the state unchanged — exactly as
for an absent entry — and propagates nothing, whereas the React hook's
uncaught read propagates the failure out of `Load`; with an available
store both failure-aware models coincide with the plain loads. -/
theorem load_store_failure (k : String) (s : St) :
    mainLoadCachedE false k s = s ∧
    mainLoadCachedE true k s = mainLoadCached k s ∧
    reactLoadE false k s = Except.error () ∧
    reactLoadE true k s = Except.ok (reactLoad k s) := by
  refine ⟨rfl, ?_, rfl, ?_⟩
  · unfold mainLoadCachedE getItemE mainLoadCached
    rfl
  · unfold reactLoadE getItemE reactLoad
    rfl

/-- An operation input is already trimmed when it is a URL set whose text
equals its own trim (other operations carry no free-text input). -/
def opInputTrimmed : Op → Bool
  | Op.setUrl i => jsTrim i == i
  | _ => true

theorem stepReact_eq_stepMain (k : String) (s : St) (op : Op)
    (h : opInputTrimmed op = true) : stepReact k s op = stepMain k s op := by
  cases op with
  | load => rfl
  | setUrl i =>
    have ht : jsTrim i = i := by simpa [opInputTrimmed] using h
    show reactSetBtnClick k i s = mainSetUrlClick k i s
    unfold reactSetBtnClick mainSetUrlClick
    rw [ht]
    by_cases hi : i = ""
    · simp [hi]
    · simp [hi, reactSetFromUrl, mainSetPreview]
  | fileChange files => rfl
  | fileDone f => rfl
  | clear => rfl

/-- C7 counterexample: the implementations diverge on a whitespace-only
URL input — the React component stores `"   "` verbatim while the plain
script trims it to nothing and does not write. -/
theorem impl_equivalence_counterexample :
    runReact (reactKey "/") ⟨"", []⟩ [Op.setUrl "   "] ≠
      runMain (reactKey "/") ⟨"", []⟩ [Op.setUrl "   "] ∧
    (runReact (reactKey "/") ⟨"", []⟩ [Op.setUrl "   "]).visible = "   " ∧
    (runMain (reactKey "/") ⟨"", []⟩ [Op.setUrl "   "]).visible = "" := by
  decide

/-- C7 amended: the React hook and the plain script are observationally
equivalent — same visible state and same stored entry — for every
operation sequence whose URL-set inputs carry no surrounding whitespace;
they differ exactly on untrimmed inputs, which the plain script trims (or
drops when whitespace-only) and the React component stores verbatim. -/
theorem impl_equivalence (k : String) (s : St) (ops : List Op)
    (h : ops.all opInputTrimmed = true) : runReact k s ops = runMain k s ops := by
  induction ops generalizing s with
  | nil => rfl
  | cons op rest ih =>
    rw [List.all_cons, Bool.and_eq_true] at h
    show runReact k (stepReact k s op) rest = runMain k (stepMain k s op) rest
    rw [stepReact_eq_stepMain k s op h.1]
    exact ih _ h.2

/-- C7 witness: on a concrete sequence of a URL set, a file completion, a
clear, and a load, the two implementations end in the same state. -/
theorem impl_equivalence_witness :
    ([Op.setUrl "https://example.com/photo.jpg",
      Op.fileDone ⟨"data:image/png;base64,AA"⟩, Op.clear,
      Op.load].all opInputTrimmed = true) ∧
    runReact (reactKey "/") ⟨"", []⟩
        [Op.setUrl "https://example.com/photo.jpg",
         Op.fileDone ⟨"data:image/png;base64,AA"⟩, Op.clear, Op.load] =
      runMain (reactKey "/") ⟨"", []⟩
        [Op.setUrl "https://example.com/photo.jpg",
         Op.fileDone ⟨"data:image/png;base64,AA"⟩, Op.clear, Op.load] :=
  ⟨by decide,
   impl_equivalence (reactKey "/") ⟨"", []⟩
     [Op.setUrl "https://example.com/photo.jpg",
      Op.fileDone ⟨"data:image/png;base64,AA"⟩, Op.clear, Op.load]
     (by decide)⟩



/-- An operation writes only non-empty values when, if it is a file-read
completion, the produced data URL is non-empty (always the case for the
browser's `readAsDataURL`, whose result has the shape
`data:<mime>;base64,<payload>`). -/
def opWriteNonEmpty : Op → Bool
  | Op.fileDone f => f.dataUrl != ""
  | _ => true

/-- Every value currently stored under `k` is non-empty. -/
def goodKey (k : String) (st : Store) : Prop :=
  ∀ v, getItem st k = some v → v ≠ ""

theorem goodKey_setItem (st : Store) (k v : String) (hv : v ≠ "") :
    goodKey k (setItem st k v) := by
  intro w hw
  rw [getItem_setItem_self] at hw
  injection hw with h2
  rw [← h2]
  exact hv

theorem goodKey_removeItem (st : Store) (k : String) :
    goodKey k (removeItem st k) := by
  intro w hw
  rw [getItem_removeItem_self] at hw
  exact Option.noConfusion hw

theorem goodKey_stepReact (k : String) (s : St) (op : Op)
    (hop : opWriteNonEmpty op = true) (h : goodKey k s.store) :
    goodKey k (stepReact k s op).store := by
  cases op with
  | load =>
    show goodKey k (reactLoad k s).store
    rw [reactLoad_store]
    exact h
  | setUrl i =>
    show goodKey k (reactSetBtnClick k i s).store
    unfold reactSetBtnClick
    by_cases hi : i = ""
    · simp [hi]
      exact h
    · simp [hi]
      exact goodKey_setItem s.store k i hi
  | fileChange files =>
    show goodKey k (reactFileInputChange files s).1.store
    match files with
    | none => exact h
    | some [] => exact h
    | some (f :: fs) => exact h
  | fileDone f =>
    have hf : f.dataUrl ≠ "" := by simpa [opWriteNonEmpty] using hop
    show goodKey k (reactFileComplete k f s).store
    exact goodKey_setItem s.store k f.dataUrl hf
  | clear =>
    show goodKey k (reactClear k s).store
    exact goodKey_removeItem s.store k

theorem goodKey_stepMain (k : String) (s : St) (op : Op)
    (hop : opWriteNonEmpty op = true) (h : goodKey k s.store) :
    goodKey k (stepMain k s op).store := by
  cases op with
  | load =>
    show goodKey k (mainLoadCached k s).store
    rw [mainLoadCached_store]
    exact h
  | setUrl i =>
    show goodKey k (mainSetUrlClick k i s).store
    unfold mainSetUrlClick
    by_cases hi : jsTrim i = ""
    · simp [hi]
      exact h
    · simp [hi]
      exact goodKey_setItem s.store k (jsTrim i) hi
  | fileChange files =>
    show goodKey k (mainFileInputChange files s).1.store
    match files with
    | none => exact h
    | some [] => exact h
    | some (f :: fs) => exact h
  | fileDone f =>
    have hf : f.dataUrl ≠ "" := by simpa [opWriteNonEmpty] using hop
    show goodKey k (mainFileComplete k f s).store
    exact goodKey_setItem s.store k f.dataUrl hf
  | clear =>
    show goodKey k (mainClearClick k s).store
    exact goodKey_removeItem s.store k

theorem goodKey_runReact (k : String) (s : St) (ops : List Op)
    (hops : ops.all opWriteNonEmpty = true) (h : goodKey k s.store) :
    goodKey k (runReact k s ops).store := by
  induction ops generalizing s with
  | nil => exact h
  | cons op rest ih =>
    rw [List.all_cons, Bool.and_eq_true] at hops
    exact ih (stepReact k s op) hops.2 (goodKey_stepReact k s op hops.1 h)

theorem goodKey_runMain (k : String) (s : St) (ops : List Op)
    (hops : ops.all opWriteNonEmpty = true) (h : goodKey k s.store) :
    goodKey k (runMain k s ops).store := by
  induction ops generalizing s with
  | nil => exact h
  | cons op rest ih =>
    rw [List.all_cons, Bool.and_eq_true] at hops
    exact ih (stepMain k s op) hops.2 (goodKey_stepMain k s op hops.1 h)

/-- C10: starting from a store whose entry under the page key (if any)
is non-empty, any sequence of operations whose file completions produce
non-empty data URLs keeps every stored value under the key non-empty —
`Clear` removes the entry rather than writing an empty value, and the set
operations only write non-empty strings — and therefore whenever an
entry is present, `Load` makes it the visible state, which is then
non-empty (Populated). Both implementations satisfy this. -/
theorem store_values_nonempty (k : String) (s : St) (ops : List Op)
    (hops : ops.all opWriteNonEmpty = true) (h : goodKey k s.store) :
    goodKey k (runReact k s ops).store ∧
    goodKey k (runMain k s ops).store ∧
    (∀ v, getItem (runReact k s ops).store k = some v →
      v ≠ "" ∧ (reactLoad k (runReact k s ops)).visible = v) ∧
    (∀ v, getItem (runMain k s ops).store k = some v →
      v ≠ "" ∧ (mainLoadCached k (runMain k s ops)).visible = v) := by
  have hr := goodKey_runReact k s ops hops h
  have hm := goodKey_runMain k s ops hops h
  refine ⟨hr, hm, ?_, ?_⟩
  · intro v hv
    exact ⟨hr v hv, reactLoad_of_some k _ v hv (hr v hv)⟩
  · intro v hv
    exact ⟨hm v hv, mainLoadCached_of_some k _ v hv (hm v hv)⟩

/-- C10 witness: after setting a URL and completing a file read on a
fresh store, the stored entry is the non-empty data URL and `Load` shows
it, in both implementations. -/
theorem store_values_nonempty_witness :
    ([Op.setUrl "https://example.com/a.jpg",
      Op.fileDone ⟨"data:image/png;base64,BB"⟩].all opWriteNonEmpty = true) ∧
    goodKey (reactKey "/") ([] : Store) ∧
    ("data:image/png;base64,BB" : String) ≠ "" ∧
    (reactLoad (reactKey "/")
        (runReact (reactKey "/") ⟨"", []⟩
          [Op.setUrl "https://example.com/a.jpg",
           Op.fileDone ⟨"data:image/png;base64,BB"⟩])).visible =
      "data:image/png;base64,BB" ∧
    (mainLoadCached (reactKey "/")
        (runMain (reactKey "/") ⟨"", []⟩
          [Op.setUrl "https://example.com/a.jpg",
           Op.fileDone ⟨"data:image/png;base64,BB"⟩])).visible =
      "data:image/png;base64,BB" := by
  have hg : goodKey (reactKey "/") ([] : Store) := by
    intro v hv
    simp [getItem] at hv
  have h := store_values_nonempty (reactKey "/") ⟨"", []⟩
    [Op.setUrl "https://example.com/a.jpg",
     Op.fileDone ⟨"data:image/png;base64,BB"⟩] (by decide) hg
  exact ⟨by decide, hg, by decide,
    (h.2.2.1 "data:image/png;base64,BB" (by decide)).2,
    (h.2.2.2 "data:image/png;base64,BB" (by decide)).2⟩


end PortfolioCache
